import Mathlib

/-!
Verification of the dispatch core of the scheduling/fan-out system.

This file gives a shallow embedding, in Lean 4, of the dispatch core found in
`core/rate_limiter.py` (`BalancedRateLimiter`), `core/retry_system.py`
(`SmartRetrySystem`), `core/sender.py` (`ParallelSender`) and the batch-grouping
fragment of `core/scheduler_core.py` (`SchedulerCore.process_due_posts`), and
proves the spec's testable properties about that embedding.

Modelling conventions:
* wall-clock instants and durations are rationals (seconds; the retry system's
  skip durations are minutes, converted exactly as the source does);
* Python dictionaries keyed by channel id are total functions `String → _`
  with the dictionary's `.get` default as the value off the written domain;
* the single suspension inside `BalancedRateLimiter.acquire` (the per-channel
  wait) is represented by an explicit wake-up instant `t2`; validity of a call
  trace records the guarantee `t2 ≥ t0 + wait_time` provided by the sleep;
* `asyncio.gather` fan-out is linearised in task order: the rate limiter's
  internal lock serialises all state mutation, so any interleaving of the
  suspension points produces the same per-channel bookkeeping;
* the external transport (`bot.send_*`) is an oracle returning `none` for a
  completed send and `some e` for a raised classifiable error with message `e`,
  matching the transport contract (each send either completes or raises an
  error carrying a human-readable message, caught as `TelegramError`);
* fire-and-forget admin notifications (`asyncio.create_task(...)`) are recorded
  in an outbound `notices` log rather than executed.
-/

/-- Pointwise update of a string-keyed dictionary modelled as a total
function. -/
def upd {β : Type} (f : String → β) (k : String) (v : β) : String → β :=
  fun c => if c = k then v else f c

@[simp]
theorem upd_same {β : Type} (f : String → β) (k : String) (v : β) : upd f k v k = v := by
  simp [upd]

@[simp]
theorem upd_other {β : Type} (f : String → β) (k c : String) (v : β) (h : c ≠ k) :
    upd f k v c = f c := by
  simp [upd, h]

/-- `needle` occurs as a contiguous substring of `hay` (Python's `x in s`). -/
def containsSub (needle hay : List Char) : Bool :=
  hay.tails.any (fun t => needle.isPrefixOf t)

/-- Python's `str(error).lower()` applied to a transport error message. -/
def lower (s : String) : List Char :=
  s.toList.map Char.toLower

/-- The three-way error taxonomy of `SmartRetrySystem.classify_error`. -/
inductive ErrType where
  | permanent
  | rate_limit
  | temporary
deriving DecidableEq, Repr

/-- The substrings whose presence marks an error as permanent
(`classify_error`, first pattern list). -/
def permanentMarkers : List String :=
  ["bot was kicked", "bot was blocked", "chat not found",
   "user is deactivated", "bot is not a member", "forbidden: bot is not"]

/-- The substrings whose presence marks an error as a rate-limit signal
(`classify_error`, second pattern list). -/
def rateLimitMarkers : List String :=
  ["flood", "too many requests", "retry after"]

/-- `SmartRetrySystem.classify_error`: pattern-match the lowercased message
against the permanent markers, then the rate-limit markers, defaulting to
`temporary`. -/
def classify_error (e : String) : ErrType :=
  let m := lower e
  if permanentMarkers.any (fun x => containsSub x.toList m) then .permanent
  else if rateLimitMarkers.any (fun x => containsSub x.toList m) then .rate_limit
  else .temporary

/-- One entry of `SmartRetrySystem.failure_history[channel_id]`. -/
structure FailureRec where
  etype : ErrType
  msg : String
  post_id : Option ℕ
  time : ℚ
deriving DecidableEq, Repr

/-- The mutable state of `SmartRetrySystem`.  `consecutive_failures` models the
dictionary with its `.get(channel_id, 0)` default; `skip_list` maps a channel
to the instant its skip began (`none` when absent). -/
structure RetryState where
  max_retries : ℕ
  alert_threshold : ℕ
  skip_duration_minutes : ℚ
  skip_list : String → Option ℚ
  failure_history : String → List FailureRec
  consecutive_failures : String → ℕ

/-- A fresh `SmartRetrySystem(max_retries=3, alert_threshold=5,
skip_duration_minutes=5)`. -/
def initRetry : RetryState :=
  { max_retries := 3
    alert_threshold := 5
    skip_duration_minutes := 5
    skip_list := fun _ => none
    failure_history := fun _ => []
    consecutive_failures := fun _ => 0 }

/-- `SmartRetrySystem.record_failure`: append to the history, then branch on
the classification — permanent errors bump the consecutive-failure count and
skip immediately; rate-limit errors change nothing else; temporary errors bump
the count and skip only once the count reaches 3. -/
def record_failure (r : RetryState) (ch : String) (e : String) (pid : Option ℕ)
    (now : ℚ) : RetryState :=
  let et := classify_error e
  let h1 := r.failure_history ch ++ [⟨et, e, pid, now⟩]
  let r1 := { r with failure_history := upd r.failure_history ch h1 }
  match et with
  | .permanent =>
      { r1 with
          consecutive_failures := upd r1.consecutive_failures ch (r1.consecutive_failures ch + 1),
          skip_list := upd r1.skip_list ch (some now) }
  | .rate_limit => r1
  | .temporary =>
      let n := r1.consecutive_failures ch + 1
      let r2 := { r1 with consecutive_failures := upd r1.consecutive_failures ch n }
      if 3 ≤ n then { r2 with skip_list := upd r2.skip_list ch (some now) } else r2

/-- `SmartRetrySystem.record_success`: reset the consecutive-failure count to 0
and delete any skip entry. -/
def record_success (r : RetryState) (ch : String) : RetryState :=
  { r with
      consecutive_failures := upd r.consecutive_failures ch 0,
      skip_list := upd r.skip_list ch none }

/-- `SmartRetrySystem.should_skip`, with its lazy expiry: no entry means not
skipped; an entry older than `skip_duration_minutes` minutes is removed, the
failure count reset, and the channel allowed; otherwise the channel is
skipped.  Returns the answer together with the (possibly mutated) state. -/
def should_skip (r : RetryState) (ch : String) (now : ℚ) : Bool × RetryState :=
  match r.skip_list ch with
  | none => (false, r)
  | some t =>
      if r.skip_duration_minutes ≤ (now - t) / 60 then
        (false, { r with
                    skip_list := upd r.skip_list ch none,
                    consecutive_failures := upd r.consecutive_failures ch 0 })
      else (true, r)

/-- Claim C5: a `rate_limited` classification leaves the whole
consecutive-failure map and the whole skip registry untouched: the
`rate_limit` branch of `record_failure` only appends to the failure history. -/
theorem rate_limited_is_frame_effect (r : RetryState) (ch : String) (e : String)
    (pid : Option ℕ) (now : ℚ) (h : classify_error e = ErrType.rate_limit) :
    (record_failure r ch e pid now).consecutive_failures = r.consecutive_failures ∧
    (record_failure r ch e pid now).skip_list = r.skip_list := by
  unfold record_failure
  rw [h]
  exact ⟨rfl, rfl⟩

/-- Witness for C5 at the concrete rate-limited error `"Flood control
exceeded. Retry after 5"` from a fresh retry system. -/
theorem rate_limited_is_frame_effect_witness :
    (record_failure initRetry "chan" "Flood control exceeded. Retry after 5" none 7).consecutive_failures
        = initRetry.consecutive_failures ∧
    (record_failure initRetry "chan" "Flood control exceeded. Retry after 5" none 7).skip_list
        = initRetry.skip_list :=
  rate_limited_is_frame_effect initRetry "chan" "Flood control exceeded. Retry after 5" none 7
    (by decide)

/-- Claim C6: immediately after `record_success(d)`, from any prior state
(any failure count, skip-listed or not), the consecutive-failure count of `d`
is 0 and `d` has no skip-registry entry. -/
theorem record_success_resets (r : RetryState) (ch : String) :
    (record_success r ch).consecutive_failures ch = 0 ∧
    (record_success r ch).skip_list ch = none := by
  constructor <;> simp [record_success]

theorem record_failure_perm_skip (r : RetryState) (ch e : String) (pid : Option ℕ)
    (now : ℚ) (h : classify_error e = ErrType.permanent) :
    (record_failure r ch e pid now).skip_list ch = some now := by
  unfold record_failure
  rw [h]
  simp [upd]

theorem record_failure_temp_cf (r : RetryState) (ch e : String) (pid : Option ℕ)
    (now : ℚ) (h : classify_error e = ErrType.temporary) :
    (record_failure r ch e pid now).consecutive_failures ch
      = r.consecutive_failures ch + 1 := by
  unfold record_failure
  rw [h]
  dsimp only
  split <;> simp [upd]

theorem record_failure_temp_skip (r : RetryState) (ch e : String) (pid : Option ℕ)
    (now : ℚ) (h : classify_error e = ErrType.temporary) :
    (record_failure r ch e pid now).skip_list ch
      = if 3 ≤ r.consecutive_failures ch + 1 then some now else r.skip_list ch := by
  unfold record_failure
  rw [h]
  dsimp only
  split <;> simp [upd]

/-- Folding `record_failure` over a list of transient errors, as long as the
running consecutive-failure count stays below 3, never creates a skip entry
and advances the count by one per error. -/
theorem transient_fold_below (ch : String) (pid : Option ℕ) (now : ℚ) :
    ∀ (es : List String) (r : RetryState),
      (∀ x ∈ es, classify_error x = ErrType.temporary) →
      r.skip_list ch = none →
      r.consecutive_failures ch + es.length < 3 →
      (es.foldl (fun a x => record_failure a ch x pid now) r).skip_list ch = none ∧
      (es.foldl (fun a x => record_failure a ch x pid now) r).consecutive_failures ch
        = r.consecutive_failures ch + es.length := by
  intro es
  induction es with
  | nil => intro r _ hskip _; simpa using hskip
  | cons x xs ih =>
      intro r hall hskip hlt
      have hx : classify_error x = ErrType.temporary := hall x (by simp)
      have hcf := record_failure_temp_cf r ch x pid now hx
      have hsk := record_failure_temp_skip r ch x pid now hx
      have hnot : ¬ 3 ≤ r.consecutive_failures ch + 1 := by
        simp at hlt ⊢
        omega
      rw [if_neg hnot] at hsk
      have := ih (record_failure r ch x pid now)
        (fun y hy => hall y (by simp [hy]))
        (by rw [hsk]; exact hskip)
        (by rw [hcf]; simp at hlt ⊢; omega)
      constructor
      · simpa only [List.foldl_cons] using this.1
      · simp only [List.foldl_cons]
        rw [this.2, hcf]
        simp only [List.length_cons]
        omega

/-- Claim C4: a permanent-classified failure inserts the destination into the
skip registry immediately, in the very call that records it (so after exactly
one occurrence, from any prior state); a transient-classified failure inserts
it exactly when the consecutive-failure count reaches 3, and any run of fewer
than 3 transient failures from a clean state never inserts it. -/
theorem permanent_skips_immediately_transient_after_three (r : RetryState)
    (ch e : String) (pid : Option ℕ) (now : ℚ) :
    ((classify_error e = ErrType.permanent →
        (record_failure r ch e pid now).skip_list ch = some now) ∧
     (classify_error e = ErrType.temporary →
        (record_failure r ch e pid now).skip_list ch
          = if 3 ≤ r.consecutive_failures ch + 1 then some now else r.skip_list ch)) ∧
    (∀ es : List String, (∀ x ∈ es, classify_error x = ErrType.temporary) →
      es.length < 3 → r.consecutive_failures ch = 0 → r.skip_list ch = none →
      (es.foldl (fun a x => record_failure a ch x pid now) r).skip_list ch = none) := by
  refine ⟨⟨fun h => record_failure_perm_skip r ch e pid now h,
           fun h => record_failure_temp_skip r ch e pid now h⟩, ?_⟩
  intro es hall hlen hcf hskip
  exact (transient_fold_below ch pid now es r hall hskip (by omega)).1

/-- Witness for C4: the permanent error `"Forbidden: bot is not a member"`
skips a fresh channel at once, while two consecutive `"Timed out"` transient
failures leave it outside the skip registry. -/
theorem permanent_skips_immediately_transient_after_three_witness :
    (record_failure initRetry "chan" "Forbidden: bot is not a member" none 4).skip_list "chan"
        = some 4 ∧
    ((["Timed out", "Timed out"] : List String).foldl
        (fun a x => record_failure a "chan" x none 4) initRetry).skip_list "chan" = none :=
  ⟨(permanent_skips_immediately_transient_after_three initRetry "chan"
      "Forbidden: bot is not a member" none 4).1.1 (by decide),
   (permanent_skips_immediately_transient_after_three initRetry "chan" "x" none 4).2
      ["Timed out", "Timed out"] (by decide) (by decide) (by decide) (by decide)⟩

/-- The sliding-window cleanup of `_check_per_channel_limit`: keep only
timestamps strictly less than 60 seconds old. -/
def cleanWindow (now : ℚ) (w : List ℚ) : List ℚ :=
  w.filter (fun s => decide (now - s < 60))

/-- `BalancedRateLimiter._check_per_channel_limit` for a present channel id:
clean the window, then report `(can_send, wait_time)` together with the
cleaned (stored) window.  At 20 or more in-window entries the wait is
`60 - (now - oldest)` where `oldest` is the first stored timestamp. -/
def checkLimit (now : ℚ) (w : List ℚ) : Bool × ℚ × List ℚ :=
  let w1 := cleanWindow now w
  if 20 ≤ w1.length then (false, 60 - (now - w1.headD 0), w1) else (true, 0, w1)

/-- One call to `BalancedRateLimiter.acquire` for a fixed channel, seen
through its per-channel window only: `t0` is the instant the first check
runs (also the timestamp later appended, the code reuses its entry-time
`now`), and `t2` the instant of the re-check after the per-channel sleep. -/
structure AcqEvent where
  t0 : ℚ
  t2 : ℚ
deriving DecidableEq, Repr

/-- Effect of one `acquire` call on the channel's window, with the abort flag:
first check passes → record `t0`; first check fails → sleep, re-check at `t2`,
record `t0` if the re-check passes, otherwise give up without recording (the
code's `return` after "Still can't send after wait"). -/
def acquireWindow (ev : AcqEvent) (w : List ℚ) : List ℚ × Bool :=
  if (checkLimit ev.t0 w).1 then ((checkLimit ev.t0 w).2.2 ++ [ev.t0], false)
  else
    let w1 := (checkLimit ev.t0 w).2.2
    if (checkLimit ev.t2 w1).1 then ((checkLimit ev.t2 w1).2.2 ++ [ev.t0], false)
    else ((checkLimit ev.t2 w1).2.2, true)

/-- Validity of one event against the window it runs on: when the first check
fails, `asyncio.sleep(wait_time)` guarantees the re-check happens no earlier
than `t0 + wait_time`. -/
def evValidB (ev : AcqEvent) (w : List ℚ) : Bool :=
  (checkLimit ev.t0 w).1 || decide (ev.t0 + (checkLimit ev.t0 w).2.1 ≤ ev.t2)

/-- The channel's window after a sequence of `acquire` calls.  Since
`channel_count_minute[channel_id]` is touched by no other code path, every
call pattern against the dispatch core induces such a sequence. -/
def runTrace : List AcqEvent → List ℚ → List ℚ
  | [], w => w
  | ev :: evs, w => runTrace evs (acquireWindow ev w).1

/-- All events of the trace respect the sleep guarantee. -/
def traceValidB : List AcqEvent → List ℚ → Bool
  | [], _ => true
  | ev :: evs, w => evValidB ev w && traceValidB evs (acquireWindow ev w).1

/-- Whether any `acquire` of the trace hits the "still at ceiling after the
wait-and-recheck" branch. -/
def traceAborts : List AcqEvent → List ℚ → Bool
  | [], _ => false
  | ev :: evs, w => (acquireWindow ev w).2 || traceAborts evs (acquireWindow ev w).1

theorem cleanWindow_length_le (now : ℚ) (w : List ℚ) :
    (cleanWindow now w).length ≤ w.length :=
  List.length_filter_le _ w

theorem checkLimit_fst_true (now : ℚ) (w : List ℚ)
    (h : (checkLimit now w).1 = true) : (cleanWindow now w).length ≤ 19 := by
  unfold checkLimit at h
  dsimp only at h
  by_cases h20 : 20 ≤ (cleanWindow now w).length
  · rw [if_pos h20] at h; cases h
  · omega

theorem checkLimit_fst_false (now : ℚ) (w : List ℚ)
    (h : (checkLimit now w).1 = false) : 20 ≤ (cleanWindow now w).length := by
  unfold checkLimit at h
  dsimp only at h
  by_cases h20 : 20 ≤ (cleanWindow now w).length
  · exact h20
  · rw [if_neg h20] at h; cases h

theorem checkLimit_snd (now : ℚ) (w : List ℚ) : (checkLimit now w).2.2 = cleanWindow now w := by
  unfold checkLimit
  dsimp only
  split <;> rfl

/-- One valid `acquire` step from a window holding at most 20 recorded sends
keeps it at most 20 and never aborts: if the first check failed, the window
held exactly 20 fresh entries, and after sleeping until `oldest + 60` the
oldest entry has aged out, so the re-check finds at most 19 and passes. -/
theorem acquireWindow_step (ev : AcqEvent) (w : List ℚ) (hw : w.length ≤ 20)
    (hv : evValidB ev w = true) :
    (acquireWindow ev w).1.length ≤ 20 ∧ (acquireWindow ev w).2 = false := by
  by_cases h1 : (checkLimit ev.t0 w).1 = true
  · have hlen := checkLimit_fst_true ev.t0 w h1
    unfold acquireWindow
    rw [if_pos h1]
    constructor
    · simp only [List.length_append, List.length_cons, List.length_nil, checkLimit_snd]
      omega
    · rfl
  · have h1f : (checkLimit ev.t0 w).1 = false := by
      cases hb : (checkLimit ev.t0 w).1
      · rfl
      · exact absurd hb h1
    have h20 := checkLimit_fst_false ev.t0 w h1f
    have hle := cleanWindow_length_le ev.t0 w
    have heq : (cleanWindow ev.t0 w).length = 20 := by omega
    -- the cleaned stored window is nonempty; name its head
    obtain ⟨a, l, hal⟩ : ∃ a l, cleanWindow ev.t0 w = a :: l := by
      cases hcl : cleanWindow ev.t0 w with
      | nil => rw [hcl] at heq; simp at heq
      | cons a l => exact ⟨a, l, rfl⟩
    -- the sleep guarantee puts the re-check at or after oldest + 60
    have hwait : ev.t0 + (checkLimit ev.t0 w).2.1 ≤ ev.t2 := by
      unfold evValidB at hv
      rw [h1f] at hv
      simpa using hv
    have hwt : (checkLimit ev.t0 w).2.1 = 60 - (ev.t0 - (cleanWindow ev.t0 w).headD 0) := by
      unfold checkLimit
      dsimp only
      rw [if_pos (by omega)]
    have hhead : (cleanWindow ev.t0 w).headD 0 = a := by rw [hal]; rfl
    have ht2 : a + 60 ≤ ev.t2 := by
      rw [hwt, hhead] at hwait
      linarith
    -- at the re-check the old head fails the freshness test
    have hdrop : cleanWindow ev.t2 (cleanWindow ev.t0 w) = cleanWindow ev.t2 l := by
      rw [hal]
      unfold cleanWindow
      rw [List.filter_cons_of_neg]
      simp only [decide_eq_true_eq]
      linarith
    have hlen2 : (cleanWindow ev.t2 (cleanWindow ev.t0 w)).length ≤ 19 := by
      rw [hdrop]
      have := List.length_filter_le (fun s => decide (ev.t2 - s < 60)) l
      have hl : l.length = 19 := by
        have : (a :: l).length = 20 := by rw [← hal]; exact heq
        simp at this
        omega
      unfold cleanWindow
      omega
    have h2t : (checkLimit ev.t2 (checkLimit ev.t0 w).2.2).1 = true := by
      rw [checkLimit_snd]
      unfold checkLimit
      dsimp only
      rw [if_neg (by omega)]
    unfold acquireWindow
    rw [if_neg (by rw [h1f]; simp), if_pos h2t]
    constructor
    · simp only [List.length_append, List.length_cons, List.length_nil, checkLimit_snd]
      omega
    · rfl

/-- Invariant propagation over a whole valid trace. -/
theorem trace_inv : ∀ (evs : List AcqEvent) (w : List ℚ), w.length ≤ 20 →
    traceValidB evs w = true →
    (runTrace evs w).length ≤ 20 ∧ traceAborts evs w = false := by
  intro evs
  induction evs with
  | nil => intro w hw _; exact ⟨hw, rfl⟩
  | cons ev evs ih =>
      intro w hw hv
      unfold traceValidB at hv
      rw [Bool.and_eq_true] at hv
      have hstep := acquireWindow_step ev w hw hv.1
      have := ih (acquireWindow ev w).1 hstep.1 hv.2
      refine ⟨this.1, ?_⟩
      unfold traceAborts
      rw [hstep.2, this.2]
      rfl

/-- Claim C1: for every destination and every call pattern against the
dispatch core (equivalently, every valid sequence of `acquire` calls on that
destination's sliding window, starting from the fresh empty window), the
number of sends recorded in any trailing 60-second window never exceeds the
per-destination ceiling of 20; moreover the "still at ceiling after the
single wait-and-recheck" branch of `BalancedRateLimiter.acquire` is never
reached, so there is no round in which that branch's outcome could make the
caller (`ParallelSender.send_post_to_channel`) perform or withhold a send. -/
theorem per_channel_window_ceiling (evs : List AcqEvent)
    (hv : traceValidB evs [] = true) :
    (∀ now : ℚ, (cleanWindow now (runTrace evs [])).length ≤ 20) ∧
    traceAborts evs [] = false := by
  have h := trace_inv evs [] (by simp) hv
  refine ⟨fun now => ?_, h.2⟩
  have := cleanWindow_length_le now (runTrace evs [])
  omega

unseal Rat.sub Rat.add in
/-- Witness for C1: a concrete valid three-call pattern. -/
theorem per_channel_window_ceiling_witness :
    traceValidB [⟨0, 0⟩, ⟨1, 1⟩, ⟨59, 59⟩] [] = true ∧
    ((∀ now : ℚ, (cleanWindow now (runTrace [⟨0, 0⟩, ⟨1, 1⟩, ⟨59, 59⟩] [])).length ≤ 20) ∧
      traceAborts [⟨0, 0⟩, ⟨1, 1⟩, ⟨59, 59⟩] [] = false) :=
  ⟨by decide, per_channel_window_ceiling [⟨0, 0⟩, ⟨1, 1⟩, ⟨59, 59⟩] (by decide)⟩

/-- The mutable state of `BalancedRateLimiter`.  `channel_count_minute` is the
per-channel sliding window of send timestamps; `channel_send_count` the
lifetime per-channel counter. -/
structure LimiterState where
  global_rate : ℚ
  burst_size : ℕ
  burst_available : ℕ
  tokens : ℚ
  max_tokens : ℚ
  last_update : ℚ
  channel_count_minute : String → List ℚ
  channel_send_count : String → ℕ
  flood_multiplier : ℚ
  last_flood_time : ℚ
  consecutive_successes : ℕ

/-- A fresh `BalancedRateLimiter()` constructed at instant `t`
(`__init__` stores `time.time()` in `last_update`). -/
def initLimiter (t : ℚ) : LimiterState :=
  { global_rate := 25
    burst_size := 20
    burst_available := 20
    tokens := 25
    max_tokens := 25
    last_update := t
    channel_count_minute := fun _ => []
    channel_send_count := fun _ => 0
    flood_multiplier := 1
    last_flood_time := 0
    consecutive_successes := 0 }

/-- `BalancedRateLimiter._refill_tokens` at instant `now`. -/
def refill_tokens (l : LimiterState) (now : ℚ) : LimiterState :=
  { l with
      tokens := min l.max_tokens
        (l.tokens + (now - l.last_update) * l.global_rate * l.flood_multiplier),
      last_update := now }

/-- The burst-or-token-bucket phase of `acquire`, entered at instant `t`
(after any per-channel wait): consume a burst token if available, otherwise
refill, wait out any token deficit (the sleep is exactly the computed wait,
after which the bucket is refilled again), and consume one token. -/
def burstOrToken (l : LimiterState) (t : ℚ) : LimiterState :=
  if 0 < l.burst_available then { l with burst_available := l.burst_available - 1 }
  else
    let l1 := refill_tokens l t
    if l1.tokens < 1 then
      let wt := (1 - l1.tokens) / (l1.global_rate * l1.flood_multiplier)
      let l2 := refill_tokens l1 (t + wt)
      { l2 with tokens := l2.tokens - 1 }
    else { l1 with tokens := l1.tokens - 1 }

/-- `BalancedRateLimiter.acquire(channel_id)` entered at instant `now`, for a
present channel id.  The per-channel phase follows `acquireWindow`; on the
"still at ceiling" branch the code returns early — without running the
burst/token phase and without recording the send — and the caller is given no
indication (the abort flag is the model's observation, not a return value). -/
def acquire (l : LimiterState) (ch : String) (now : ℚ) : LimiterState × Bool :=
  let c1 := checkLimit now (l.channel_count_minute ch)
  if c1.1 then
    let l1 := { l with channel_count_minute := upd l.channel_count_minute ch c1.2.2 }
    let l2 := burstOrToken l1 now
    ({ l2 with
         channel_count_minute := upd l2.channel_count_minute ch (l2.channel_count_minute ch ++ [now]),
         channel_send_count := upd l2.channel_send_count ch (l2.channel_send_count ch + 1) },
     false)
  else
    let t2 := now + c1.2.1
    let c2 := checkLimit t2 c1.2.2
    let l1 := { l with channel_count_minute := upd l.channel_count_minute ch c2.2.2 }
    if c2.1 then
      let l2 := burstOrToken l1 t2
      ({ l2 with
           channel_count_minute := upd l2.channel_count_minute ch (l2.channel_count_minute ch ++ [now]),
           channel_send_count := upd l2.channel_send_count ch (l2.channel_send_count ch + 1) },
       false)
    else (l1, true)

/-- `BalancedRateLimiter.report_flood_control` at instant `now`. -/
def report_flood_control (l : LimiterState) (now : ℚ) : LimiterState :=
  { l with
      flood_multiplier := 1 / 2,
      last_flood_time := now,
      burst_available := 0,
      consecutive_successes := 0 }

/-- `BalancedRateLimiter.report_success` at instant `now`: bump the success
streak; once 60 seconds have passed since the last flood and the multiplier is
below 1, a streak of 50 raises the multiplier by 0.1 (capped at 1), and the
streak resets when the multiplier is fully restored. -/
def report_success (l : LimiterState) (now : ℚ) : LimiterState :=
  let l1 := { l with consecutive_successes := l.consecutive_successes + 1 }
  if 60 < now - l1.last_flood_time ∧ l1.flood_multiplier < 1 then
    if 50 ≤ l1.consecutive_successes then
      let m := min 1 (l1.flood_multiplier + 1 / 10)
      { l1 with
          flood_multiplier := m,
          consecutive_successes := if 1 ≤ m then 0 else l1.consecutive_successes }
    else l1
  else l1

/-- `BalancedRateLimiter.reset_burst`. -/
def reset_burst (l : LimiterState) : LimiterState :=
  { l with burst_available := l.burst_size }

/-- Claim C3: for every prior state whose flood multiplier lies in the
documented range (at most 1), `report_flood_control` sets the multiplier to
`max (1/2) (m/2)` — the code's fixed reset to `0.5` coincides with "halve,
floored at the configured minimum `0.5`" throughout that range — zeroes the
burst allowance, zeroes the consecutive-success streak, and records the
overload instant. -/
theorem report_flood_control_halves (l : LimiterState) (now : ℚ)
    (h : l.flood_multiplier ≤ 1) :
    (report_flood_control l now).flood_multiplier = max (1 / 2) (l.flood_multiplier / 2) ∧
    (report_flood_control l now).burst_available = 0 ∧
    (report_flood_control l now).consecutive_successes = 0 ∧
    (report_flood_control l now).last_flood_time = now := by
  refine ⟨?_, rfl, rfl, rfl⟩
  have hx : l.flood_multiplier / 2 ≤ 1 / 2 := by linarith
  rw [max_eq_left hx]
  rfl

/-- Witness for C3 at a state with multiplier 4/5 (halving would undershoot
the floor, so the result is the floor 1/2). -/
theorem report_flood_control_halves_witness :
    ((4 : ℚ) / 5 ≤ 1) ∧
    ((report_flood_control { initLimiter 0 with flood_multiplier := 4 / 5 } 9).flood_multiplier
        = max (1 / 2) ((4 : ℚ) / 5 / 2) ∧
     (report_flood_control { initLimiter 0 with flood_multiplier := 4 / 5 } 9).burst_available = 0 ∧
     (report_flood_control { initLimiter 0 with flood_multiplier := 4 / 5 } 9).consecutive_successes = 0 ∧
     (report_flood_control { initLimiter 0 with flood_multiplier := 4 / 5 } 9).last_flood_time = 9) :=
  ⟨by norm_num,
   report_flood_control_halves { initLimiter 0 with flood_multiplier := 4 / 5 } 9 (by norm_num)⟩

/-- A work item (a row of the `posts` table) as the dispatch core reads it.
`batch_id := none` models a NULL/empty (falsy) batch tag. -/
structure Post where
  id : ℕ
  message : String
  media_type : Option String
  media_file_id : Option String
  caption : Option String
  scheduled_time : ℚ
  posted : Bool
  total_channels : ℕ
  successful_posts : ℕ
  posted_at : Option ℚ
  batch_id : Option String
deriving DecidableEq, Repr

/-- The running state of the grouping loop in
`SchedulerCore.process_due_posts`: completed batches, the current batch, and
the first ("last seen at group start") time and batch id of the current
batch. -/
structure GroupState where
  batches : List (ℚ × List Post)
  current : List Post
  last_time : Option ℚ
  last_batch_id : Option String

/-- One iteration of the grouping loop: the first post opens the group; a
later post joins when its (truthy) batch id equals the group-opening post's,
or when its time is within 5 seconds of the group-opening post's time;
otherwise the current group is flushed and a new one opened. -/
def group_step (g : GroupState) (post : Post) : GroupState :=
  match g.last_time with
  | none =>
      { g with
          current := [post],
          last_time := some post.scheduled_time,
          last_batch_id := post.batch_id }
  | some lt =>
      if post.batch_id.isSome ∧ post.batch_id = g.last_batch_id then
        { g with current := g.current ++ [post] }
      else if |post.scheduled_time - lt| ≤ 5 then
        { g with current := g.current ++ [post] }
      else
        { g with
            batches := g.batches ++ [(lt, g.current)],
            current := [post],
            last_time := some post.scheduled_time,
            last_batch_id := post.batch_id }

/-- The flush after the loop (`if current_batch: batches.append(...)`). -/
def group_finish (g : GroupState) : List (ℚ × List Post) :=
  match g.last_time, g.current with
  | some lt, p :: rest => g.batches ++ [(lt, p :: rest)]
  | _, _ => g.batches

/-- The batch-grouping step of `SchedulerCore.process_due_posts` on a list of
due posts (posts with a parseable scheduled time; unparseable ones are skipped
before grouping and are outside this model). -/
def group_due_posts (posts : List Post) : List (ℚ × List Post) :=
  group_finish (posts.foldl group_step ⟨[], [], none, none⟩)

/-- Modelled from the spec (§4.4 tie-break rule), for refinement comparison:
the running group is identified by its first item's time `headT` and batch tag
`headB`; an item joins iff its explicit batch tag matches or it lies within 5
seconds of the running group's first timestamp, else a new group starts. -/
def groupSpecGo (headT : ℚ) (headB : Option String) (acc : List Post) :
    List Post → List (ℚ × List Post)
  | [] => [(headT, acc)]
  | q :: rest =>
      if (q.batch_id.isSome ∧ q.batch_id = headB) ∨ |q.scheduled_time - headT| ≤ 5 then
        groupSpecGo headT headB (acc ++ [q]) rest
      else (headT, acc) :: groupSpecGo q.scheduled_time q.batch_id [q] rest

/-- Modelled from the spec (§4.4 tie-break rule): group a list of due items by
the running-group-head rule. -/
def group_spec : List Post → List (ℚ × List Post)
  | [] => []
  | p :: rest => groupSpecGo p.scheduled_time p.batch_id [p] rest

theorem groupSpecGo_cons (headT : ℚ) (headB : Option String) (acc : List Post)
    (q : Post) (rest : List Post) :
    groupSpecGo headT headB acc (q :: rest) =
      if (q.batch_id.isSome ∧ q.batch_id = headB) ∨ |q.scheduled_time - headT| ≤ 5 then
        groupSpecGo headT headB (acc ++ [q]) rest
      else (headT, acc) :: groupSpecGo q.scheduled_time q.batch_id [q] rest := rfl

theorem group_fold_spec :
    ∀ (rest : List Post) (batches : List (ℚ × List Post)) (a : Post) (acc : List Post)
      (lt : ℚ) (lbid : Option String),
      group_finish (rest.foldl group_step ⟨batches, a :: acc, some lt, lbid⟩) =
        batches ++ groupSpecGo lt lbid (a :: acc) rest := by
  intro rest
  induction rest with
  | nil => intro batches a acc lt lbid; rfl
  | cons q rest ih =>
      intro batches a acc lt lbid
      rw [List.foldl_cons, groupSpecGo_cons]
      by_cases hb : q.batch_id.isSome ∧ q.batch_id = lbid
      · have hstep : group_step ⟨batches, a :: acc, some lt, lbid⟩ q
            = ⟨batches, (a :: acc) ++ [q], some lt, lbid⟩ := by
          unfold group_step
          dsimp only
          rw [if_pos hb]
        rw [hstep, if_pos (Or.inl hb), List.cons_append, ih, ← List.cons_append]
      · by_cases ht : |q.scheduled_time - lt| ≤ 5
        · have hstep : group_step ⟨batches, a :: acc, some lt, lbid⟩ q
              = ⟨batches, (a :: acc) ++ [q], some lt, lbid⟩ := by
            unfold group_step
            dsimp only
            rw [if_neg hb, if_pos ht]
          rw [hstep, if_pos (Or.inr ht), List.cons_append, ih, ← List.cons_append]
        · have hstep : group_step ⟨batches, a :: acc, some lt, lbid⟩ q
              = ⟨batches ++ [(lt, a :: acc)], [q], some q.scheduled_time, q.batch_id⟩ := by
            unfold group_step
            dsimp only
            rw [if_neg hb, if_neg ht]
          rw [hstep, if_neg (by rintro (h | h) <;> [exact hb h; exact ht h]), ih]
          simp

/-- Claim C2 (amended): the grouping computed by
`SchedulerCore.process_due_posts` is the deterministic function characterised
by the running-group-head rule — an item joins the running group exactly when
its explicit (truthy) batch tag equals the tag of the item that opened the
group, or its scheduled time is within 5 seconds of the time of the item that
opened the group; otherwise a new group starts.  (Joining does not compare
against the immediately preceding item, and does not refresh the group's
reference tag or time.) -/
theorem grouping_matches_head_rule (posts : List Post) :
    group_due_posts posts = group_spec posts := by
  cases posts with
  | nil => rfl
  | cons p rest =>
      unfold group_due_posts group_spec
      rw [List.foldl_cons]
      have hstep : group_step ⟨[], [], none, none⟩ p
          = ⟨[], [p], some p.scheduled_time, p.batch_id⟩ := rfl
      rw [hstep]
      exact group_fold_spec rest [] p [] p.scheduled_time p.batch_id

/-- Three due items sorted by time: at 0 with no tag, at 4 with tag "a", at 8
with tag "a". -/
def cexPost (n : ℕ) (t : ℚ) (b : Option String) : Post :=
  { id := n
    message := "m"
    media_type := none
    media_file_id := none
    caption := none
    scheduled_time := t
    posted := false
    total_channels := 0
    successful_posts := 0
    posted_at := none
    batch_id := b }

unseal Rat.sub in
/-- Counterexample to claim C2 as stated: in the sorted list with items at
times 0 (no tag), 4 (tag "a") and 8 (tag "a"), items 2 and 3 share a batch
key and are consecutive with scheduled times 4 seconds apart (≤ 5), yet the
code places item 2 with item 1 (time proximity to the group head at 0) and
starts a new group at item 3 (tag differs from the group head's missing tag,
and 8 − 0 > 5). -/
theorem grouping_claim_counterexample :
    (group_due_posts
        [cexPost 1 0 none, cexPost 2 4 (some "a"), cexPost 3 8 (some "a")]).map
          (fun b => b.2.map Post.id) = [[1, 2], [3]] ∧
    (cexPost 2 4 (some "a")).batch_id = (cexPost 3 8 (some "a")).batch_id ∧
    |(cexPost 3 8 (some "a")).scheduled_time - (cexPost 2 4 (some "a")).scheduled_time| ≤ 5 := by
  refine ⟨?_, rfl, by norm_num [cexPost]⟩
  norm_num [group_due_posts, group_finish, group_step, cexPost, abs_sub_le_iff]
  simp

/-- A fire-and-forget admin notification spawned by the sender
(`_notify_first_failure` and `_notify_admin_with_actions`). -/
inductive Notice where
  | firstFailure (ch : String)
  | actionable (ch : String)
deriving DecidableEq, Repr

/-- One entry of `ParallelSender.deferred_retries`. -/
structure DeferredRetry where
  post_id : ℕ
  channel_id : String
  timestamp : ℚ
  attempts : ℕ
deriving DecidableEq, Repr

/-- The state the sender operates on: its collaborators (`retry_system`,
`rate_limiter`), its own fields (`admin_notified`, `deferred_retries`), the
outbound notification log, and the `posts` table of the work store. -/
structure SysState where
  retry : RetryState
  limiter : LimiterState
  admin_notified : String → Option ℕ
  deferred_retries : List DeferredRetry
  notices : List Notice
  db : List Post

/-- `SELECT * FROM posts WHERE id = ?` (`fetchone`). -/
def dbFetch (db : List Post) (pid : ℕ) : Option Post :=
  db.find? (fun p => p.id == pid)

/-- `UPDATE posts SET posted = 1, posted_at = ?, successful_posts = ? WHERE
id = ?`. -/
def mark_posted (db : List Post) (pid : ℕ) (now : ℚ) (succ : ℕ) : List Post :=
  db.map (fun p =>
    if p.id = pid then { p with posted := true, posted_at := some now, successful_posts := succ }
    else p)

/-- The sender's check for whether a failure message signals flood control
(`'flood' in error_msg or 'too many requests' in error_msg`, on the lowercased
message). -/
def floodTrigger (e : String) : Bool :=
  containsSub "flood".toList (lower e) || containsSub "too many requests".toList (lower e)

/-- The success path of `send_post_to_channel`'s try-block after the transport
completed: `report_success`, `record_success`, and deletion of the channel's
`admin_notified` entry. -/
def sendSuccessUpdate (s : SysState) (ch : String) (now : ℚ) : SysState :=
  { s with
      limiter := report_success s.limiter now,
      retry := record_success s.retry ch,
      admin_notified := upd s.admin_notified ch none }

/-- The `except TelegramError` handler of `send_post_to_channel`: report flood
control to the rate limiter when the message says so, record the failure, then
spawn the first-failure notice (at count 1) or the actionable notice (at count
≥ 3, deduplicated through `admin_notified`). -/
def sendFailureUpdate (s : SysState) (post : Post) (ch : String) (e : String)
    (now : ℚ) : SysState :=
  let lim2 := if floodTrigger e then report_flood_control s.limiter now else s.limiter
  let r2 := record_failure s.retry ch e (some post.id) now
  let fc := r2.consecutive_failures ch
  let s2 := { s with limiter := lim2, retry := r2 }
  if fc = 1 then { s2 with notices := s2.notices ++ [Notice.firstFailure ch] }
  else if 3 ≤ fc ∧ s2.admin_notified ch = none then
    { s2 with
        notices := s2.notices ++ [Notice.actionable ch],
        admin_notified := upd s2.admin_notified ch (some fc) }
  else s2

/-- `ParallelSender.send_post_to_channel` at instant `now` with transport
outcome `outcome` (`none` = the `bot.send_*` call completed, `some e` = it
raised a classifiable error with message `e`): skip check, rate-budget
acquisition (whose abort flag the code cannot observe and therefore ignores),
transport attempt, then success or failure bookkeeping.  Always returns a
boolean — the handler converts every transport error into `false`. -/
def sendPostToChannel (s : SysState) (post : Post) (ch : String)
    (outcome : Option String) (now : ℚ) : Bool × SysState :=
  if (should_skip s.retry ch now).1 then
    (false, { s with retry := (should_skip s.retry ch now).2 })
  else
    let s1 := { s with
                  retry := (should_skip s.retry ch now).2,
                  limiter := (acquire s.limiter ch now).1 }
    match outcome with
    | none => (true, sendSuccessUpdate s1 ch now)
    | some e => (false, sendFailureUpdate s1 post ch e now)

/-- `ParallelSender._should_defer_retries`: true when the next scheduled post
(if any) is due within 60 seconds. -/
def should_defer_retries (next_post : Option ℚ) (now : ℚ) : Bool :=
  match next_post with
  | none => false
  | some t => decide (t - now < 60)

/-- The skip-list filter run before task creation in
`send_batch_to_all_channels` (its `should_skip` calls mutate the retry state
through lazy expiry). -/
def filterActive (now : ℚ) : List String → RetryState → RetryState × List String
  | [], r => (r, [])
  | ch :: chs, r =>
      let c := should_skip r ch now
      let rest := filterActive now chs c.2
      if c.1 then rest else (rest.1, ch :: rest.2)

/-- The `asyncio.gather` fan-out of one post to the active channels,
linearised in task order; returns the per-channel results in order. -/
def fanoutSends (outcome : ℕ → String → Option String) (now : ℚ) (post : Post) :
    List String → SysState → SysState × List Bool
  | [], s => (s, [])
  | ch :: chs, s =>
      let r := sendPostToChannel s post ch (outcome post.id ch) now
      let rest := fanoutSends outcome now post chs r.2
      (rest.1, r.1 :: rest.2)

/-- The per-post loop of `send_batch_to_all_channels`.  `k` counts the calls
made so far to `emergency_stopped_flag` (the flag oracle `flags` is sampled
once per call); each iteration first samples the flag and breaks when it is
set, then filters skip-listed channels, fans out, collects failures, and marks
the post as posted with its success count.  Returns the final state, the next
flag-sample index, and the collected failed sends. -/
def batchLoop (flags : ℕ → Bool) (channels : List String)
    (outcome : ℕ → String → Option String) (now : ℚ) :
    List Post → SysState → ℕ → List (ℕ × String) → SysState × ℕ × List (ℕ × String)
  | [], s, k, failed => (s, k, failed)
  | post :: rest, s, k, failed =>
      if flags k then (s, k + 1, failed)
      else
        let act := filterActive now channels s.retry
        let fo := fanoutSends outcome now post act.2 { s with retry := act.1 }
        let succ := fo.2.count true
        let failedNew := (act.2.zip fo.2).filterMap
          (fun pr => if pr.2 then none else some (post.id, pr.1))
        batchLoop flags channels outcome now rest
          { fo.1 with db := mark_posted fo.1.db post.id now succ } (k + 1) (failed ++ failedNew)

/-- The immediate-retry phase at the end of `send_batch_to_all_channels`:
for each failed send, re-check the skip list, re-fetch the post, and retry
once, counting successes. -/
def retryPhase (now : ℚ) (outcome : ℕ → String → Option String) :
    List (ℕ × String) → SysState → SysState × ℕ
  | [], s => (s, 0)
  | f :: fs, s =>
      let c := should_skip s.retry f.2 now
      let s1 := { s with retry := c.2 }
      if c.1 then retryPhase now outcome fs s1
      else
        match dbFetch s1.db f.1 with
        | none => retryPhase now outcome fs s1
        | some post =>
            let r := sendPostToChannel s1 post f.2 (outcome f.1 f.2) now
            let rest := retryPhase now outcome fs r.2
            (rest.1, (if r.1 then 1 else 0) + rest.2)

/-- The observability record returned by `send_batch_to_all_channels`. -/
structure BatchResult where
  total_messages : ℕ
  failed_count : ℕ
  retry_success : ℕ
deriving DecidableEq, Repr

/-- `ParallelSender.send_batch_to_all_channels`: abort with no side effects if
the emergency flag is already set; reset the burst allowance; run the per-post
loop; then the smart retry decision — nothing when there were no failures,
nothing when the (re-sampled) emergency flag is set, deferral of every failure
with 0 attempts when more work is due within 60 s, otherwise one synchronous
retry pass.  The flag oracle is sampled only when `failed` is nonempty, as in
the short-circuit `failed_sends and not emergency_stopped_flag()`. -/
def send_batch_to_all_channels (s : SysState) (posts : List Post)
    (channels : List String) (outcome : ℕ → String → Option String)
    (flags : ℕ → Bool) (next_post : Option ℚ) (now : ℚ) :
    SysState × Option BatchResult :=
  if flags 0 then (s, none)
  else
    let s0 := { s with limiter := reset_burst s.limiter }
    let res := batchLoop flags channels outcome now posts s0 1 []
    let s1 := res.1
    let k := res.2.1
    let failed := res.2.2
    let total := posts.length * channels.length
    if failed.isEmpty then (s1, some ⟨total, 0, 0⟩)
    else if flags k then (s1, some ⟨total, failed.length, 0⟩)
    else if should_defer_retries next_post now then
      ({ s1 with deferred_retries :=
           s1.deferred_retries ++ failed.map (fun f => ⟨f.1, f.2, now, 0⟩) },
       some ⟨total, failed.length, 0⟩)
    else
      let rp := retryPhase now outcome failed s1
      (rp.1, some ⟨total, failed.length, rp.2⟩)

/-- The loop body of `process_deferred_retries` over the queued entries:
skip-listed entries stay queued untouched; entries whose post no longer
fetches are dropped; a successful retry removes the entry; a failed retry
increments its attempts, and at `maxAttempts` the entry is dropped with an
actionable alert deduplicated through `admin_notified`. -/
def deferredLoop (outcome : ℕ → String → Option String) (now : ℚ) (maxAttempts : ℕ) :
    List DeferredRetry → SysState → SysState × List DeferredRetry × ℕ
  | [], s => (s, [], 0)
  | r :: rs, s =>
      let c := should_skip s.retry r.channel_id now
      let s1 := { s with retry := c.2 }
      if c.1 then
        let rest := deferredLoop outcome now maxAttempts rs s1
        (rest.1, r :: rest.2.1, rest.2.2)
      else
        match dbFetch s1.db r.post_id with
        | none => deferredLoop outcome now maxAttempts rs s1
        | some post =>
            let sd := sendPostToChannel s1 post r.channel_id (outcome r.post_id r.channel_id) now
            if sd.1 then
              let rest := deferredLoop outcome now maxAttempts rs sd.2
              (rest.1, rest.2.1, rest.2.2 + 1)
            else
              let fc := sd.2.retry.consecutive_failures r.channel_id
              if maxAttempts ≤ r.attempts + 1 then
                let s3 :=
                  if sd.2.admin_notified r.channel_id = none then
                    { sd.2 with
                        notices := sd.2.notices ++ [Notice.actionable r.channel_id],
                        admin_notified := upd sd.2.admin_notified r.channel_id (some fc) }
                  else sd.2
                deferredLoop outcome now maxAttempts rs s3
              else
                let rest := deferredLoop outcome now maxAttempts rs sd.2
                (rest.1, { r with attempts := r.attempts + 1 } :: rest.2.1, rest.2.2)

/-- `ParallelSender.process_deferred_retries`: nothing to do on an empty
queue; nothing when more work is due within 60 s; otherwise run one pass over
the queue and replace it with the surviving entries. -/
def process_deferred_retries (s : SysState) (next_post : Option ℚ)
    (outcome : ℕ → String → Option String) (now : ℚ) (maxAttempts : ℕ) :
    SysState × ℕ :=
  if s.deferred_retries.isEmpty then (s, 0)
  else if should_defer_retries next_post now then (s, 0)
  else
    let res := deferredLoop outcome now maxAttempts s.deferred_retries s
    ({ res.1 with deferred_retries := res.2.1 }, res.2.2)

theorem record_failure_history (r : RetryState) (ch e : String) (pid : Option ℕ)
    (now : ℚ) :
    (record_failure r ch e pid now).failure_history ch
      = r.failure_history ch ++ [⟨classify_error e, e, pid, now⟩] := by
  unfold record_failure
  cases hc : classify_error e
  · simp [upd]
  · simp [upd]
  · dsimp only
    split <;> simp [upd]

theorem sendFailureUpdate_retry (s : SysState) (post : Post) (ch e : String) (now : ℚ) :
    (sendFailureUpdate s post ch e now).retry
      = record_failure s.retry ch e (some post.id) now := by
  unfold sendFailureUpdate
  dsimp only
  split
  · rfl
  · split <;> rfl

theorem sendFailureUpdate_limiter (s : SysState) (post : Post) (ch e : String) (now : ℚ) :
    (sendFailureUpdate s post ch e now).limiter
      = if floodTrigger e then report_flood_control s.limiter now else s.limiter := by
  unfold sendFailureUpdate
  dsimp only
  split
  · rfl
  · split <;> rfl

/-- Claim C7: `send_post_to_channel` always returns a boolean;
`true` only for a completed transport send on a non-skipped destination, and
every raised transport error is converted locally into `false` together with
recorded classifier state (the failure, with its classification, is appended
to the destination's failure history) and recorded rate-budget state (a
flood-signalling message halves the rate via `report_flood_control` and
records the overload instant).  Nothing propagates to the caller: the whole
outcome space of the transport contract is handled. -/
theorem dispatcher_send_total (s : SysState) (post : Post) (ch : String)
    (outcome : Option String) (now : ℚ) :
    ((sendPostToChannel s post ch outcome now).1 = true →
       outcome = none ∧ (should_skip s.retry ch now).1 = false) ∧
    (∀ e, outcome = some e →
       (sendPostToChannel s post ch outcome now).1 = false ∧
       ((should_skip s.retry ch now).1 = false →
         (sendPostToChannel s post ch outcome now).2.retry.failure_history ch =
           (should_skip s.retry ch now).2.failure_history ch
             ++ [⟨classify_error e, e, some post.id, now⟩] ∧
         (floodTrigger e = true →
           (sendPostToChannel s post ch outcome now).2.limiter.flood_multiplier = 1 / 2 ∧
           (sendPostToChannel s post ch outcome now).2.limiter.last_flood_time = now))) := by
  by_cases hsk : (should_skip s.retry ch now).1 = true
  · constructor
    · intro htrue
      simp [sendPostToChannel, hsk] at htrue
    · intro e he
      refine ⟨by simp [sendPostToChannel, hsk], fun hf => absurd hsk (by simp [hf])⟩
  · have hskf : (should_skip s.retry ch now).1 = false := by
      cases hb : (should_skip s.retry ch now).1
      · rfl
      · exact absurd hb hsk
    constructor
    · intro htrue
      cases outcome with
      | none => exact ⟨rfl, hskf⟩
      | some e => simp [sendPostToChannel, hskf] at htrue
    · intro e he
      subst he
      refine ⟨by simp [sendPostToChannel, hskf], fun _ => ?_⟩
      have hsend : (sendPostToChannel s post ch (some e) now).2
          = sendFailureUpdate
              { s with
                  retry := (should_skip s.retry ch now).2,
                  limiter := (acquire s.limiter ch now).1 } post ch e now := by
        simp [sendPostToChannel, hskf]
      constructor
      · rw [hsend, sendFailureUpdate_retry]
        exact record_failure_history _ ch e (some post.id) now
      · intro hft
        rw [hsend, sendFailureUpdate_limiter, if_pos hft]
        exact ⟨rfl, rfl⟩

/-- A freshly constructed sender with its collaborators and an empty posts
table. -/
def initSys : SysState :=
  { retry := initRetry
    limiter := initLimiter 0
    admin_notified := fun _ => none
    deferred_retries := []
    notices := []
    db := [] }

/-- Witness for C7: a transient transport error and a flood-control transport
error against a fresh system. -/
theorem dispatcher_send_total_witness :
    (sendPostToChannel initSys (cexPost 1 0 none) "chan" (some "Timed out") 3).1 = false ∧
    (sendPostToChannel initSys (cexPost 1 0 none) "chan" (some "Timed out") 3).2.retry.failure_history "chan"
        = (should_skip initSys.retry "chan" 3).2.failure_history "chan"
            ++ [⟨classify_error "Timed out", "Timed out", some (cexPost 1 0 none).id, 3⟩] ∧
    (sendPostToChannel initSys (cexPost 1 0 none) "chan" (some "Flood control exceeded") 3).2.limiter.flood_multiplier
        = 1 / 2 :=
  ⟨((dispatcher_send_total initSys (cexPost 1 0 none) "chan" (some "Timed out") 3).2
      "Timed out" rfl).1,
   ((((dispatcher_send_total initSys (cexPost 1 0 none) "chan" (some "Timed out") 3).2
      "Timed out" rfl).2) (by rfl)).1,
   (((((dispatcher_send_total initSys (cexPost 1 0 none) "chan"
          (some "Flood control exceeded") 3).2
      "Flood control exceeded" rfl).2) (by rfl)).2 (by decide)).1⟩

/-- Scenario D initial state: one deferred retry for post 7 to destination
"d", queued with 0 attempts; post 7 is present in the store. -/
def scen8Init : SysState :=
  { initSys with
      deferred_retries := [⟨7, "d", 0, 0⟩],
      db := [cexPost 7 0 none] }

/-- A transport that keeps failing with a transient error. -/
def oFail : ℕ → String → Option String := fun _ _ => some "Timed out"

/-- A transport that completes every send. -/
def oSucc : ℕ → String → Option String := fun _ _ => none

/-- State after the first failing retry pass (no post due within 60 s). -/
def scen8a : SysState := (process_deferred_retries scen8Init none oFail 100 3).1

/-- State after the second failing retry pass. -/
def scen8b : SysState := (process_deferred_retries scen8a none oFail 200 3).1

/-- State after the third failing retry pass. -/
def scen8c : SysState := (process_deferred_retries scen8b none oFail 300 3).1

/-- State after one succeeding retry pass from the initial state. -/
def scen8succ : SysState := (process_deferred_retries scen8Init none oSucc 100 3).1

/-- Claim C8: a deferred retry queued with 0 attempts whose sends keep
failing stays queued with its attempt count incremented after each of the
first two passes (below the cap), and after the third failed pass
(`max_retry_attempts = 3`) it is removed from the queue with exactly one
actionable alert emitted for its destination over the whole run — the alert
fired by `send_post_to_channel` at 3 consecutive failures marks
`admin_notified`, so the exhaustion branch of `process_deferred_retries`
emits no duplicate.  An entry whose retry succeeds is removed without any
alert. -/
theorem deferred_retry_cap_and_alert :
    scen8a.deferred_retries = [⟨7, "d", 0, 1⟩] ∧
    scen8b.deferred_retries = [⟨7, "d", 0, 2⟩] ∧
    scen8c.deferred_retries = [] ∧
    scen8c.notices = [Notice.firstFailure "d", Notice.actionable "d"] ∧
    scen8succ.deferred_retries = [] ∧
    scen8succ.notices = [] := by
  have hc1 : classify_error "Timed out" = ErrType.temporary := by decide
  have hf1 : floodTrigger "Timed out" = false := by decide
  refine ⟨?_, ?_, ?_, ?_, ?_, ?_⟩ <;>
    norm_num [scen8c, scen8b, scen8a, scen8succ, scen8Init, initSys, initRetry, initLimiter,
      cexPost, oFail, oSucc, process_deferred_retries, deferredLoop, should_defer_retries,
      should_skip, dbFetch, sendPostToChannel, sendSuccessUpdate, sendFailureUpdate,
      record_failure, record_success, report_success, report_flood_control, acquire,
      checkLimit, cleanWindow, burstOrToken, refill_tokens, upd, hc1, hf1] <;>
    simp

theorem sendSuccessUpdate_db (s : SysState) (ch : String) (now : ℚ) :
    (sendSuccessUpdate s ch now).db = s.db := rfl

theorem sendFailureUpdate_db (s : SysState) (post : Post) (ch e : String) (now : ℚ) :
    (sendFailureUpdate s post ch e now).db = s.db := by
  unfold sendFailureUpdate
  dsimp only
  split
  · rfl
  · split <;> rfl

theorem sendPostToChannel_db (s : SysState) (post : Post) (ch : String)
    (outcome : Option String) (now : ℚ) :
    (sendPostToChannel s post ch outcome now).2.db = s.db := by
  unfold sendPostToChannel
  dsimp only
  split
  · rfl
  · cases outcome with
    | none => exact sendSuccessUpdate_db _ ch now
    | some e => exact sendFailureUpdate_db _ post ch e now

theorem sendSuccessUpdate_deferred (s : SysState) (ch : String) (now : ℚ) :
    (sendSuccessUpdate s ch now).deferred_retries = s.deferred_retries := rfl

theorem sendFailureUpdate_deferred (s : SysState) (post : Post) (ch e : String) (now : ℚ) :
    (sendFailureUpdate s post ch e now).deferred_retries = s.deferred_retries := by
  unfold sendFailureUpdate
  dsimp only
  split
  · rfl
  · split <;> rfl

theorem sendPostToChannel_deferred (s : SysState) (post : Post) (ch : String)
    (outcome : Option String) (now : ℚ) :
    (sendPostToChannel s post ch outcome now).2.deferred_retries = s.deferred_retries := by
  unfold sendPostToChannel
  dsimp only
  split
  · rfl
  · cases outcome with
    | none => exact sendSuccessUpdate_deferred _ ch now
    | some e => exact sendFailureUpdate_deferred _ post ch e now

theorem fanoutSends_db (outcome : ℕ → String → Option String) (now : ℚ) (post : Post) :
    ∀ (chs : List String) (s : SysState),
      (fanoutSends outcome now post chs s).1.db = s.db := by
  intro chs
  induction chs with
  | nil => intro s; rfl
  | cons ch chs ih =>
      intro s
      unfold fanoutSends
      dsimp only
      rw [ih, sendPostToChannel_db]

theorem fanoutSends_deferred (outcome : ℕ → String → Option String) (now : ℚ) (post : Post) :
    ∀ (chs : List String) (s : SysState),
      (fanoutSends outcome now post chs s).1.deferred_retries = s.deferred_retries := by
  intro chs
  induction chs with
  | nil => intro s; rfl
  | cons ch chs ih =>
      intro s
      unfold fanoutSends
      dsimp only
      rw [ih, sendPostToChannel_deferred]

theorem mark_posted_self (db : List Post) (pid : ℕ) (now : ℚ) (c : ℕ) :
    ∀ q ∈ mark_posted db pid now c, q.id = pid → q.posted = true := by
  intro q hq hid
  obtain ⟨p, hp, rfl⟩ := List.mem_map.mp hq
  by_cases hpi : p.id = pid
  · simp [hpi]
  · simp only [if_neg hpi] at hid ⊢
    exact absurd hid hpi

theorem mark_posted_keep_true (db : List Post) (pid : ℕ) (now : ℚ) (c : ℕ) (x : ℕ)
    (h : ∀ q ∈ db, q.id = x → q.posted = true) :
    ∀ q ∈ mark_posted db pid now c, q.id = x → q.posted = true := by
  intro q hq hid
  obtain ⟨p, hp, rfl⟩ := List.mem_map.mp hq
  by_cases hpi : p.id = pid
  · simp [hpi]
  · simp only [if_neg hpi] at hid ⊢
    exact h p hp hid

theorem mark_posted_keep_false (db : List Post) (pid : ℕ) (now : ℚ) (c : ℕ) (x : ℕ)
    (hx : pid ≠ x) (h : ∀ q ∈ db, q.id = x → q.posted = false) :
    ∀ q ∈ mark_posted db pid now c, q.id = x → q.posted = false := by
  intro q hq hid
  obtain ⟨p, hp, rfl⟩ := List.mem_map.mp hq
  by_cases hpi : p.id = pid
  · have h2 : p.id = x := by simpa [hpi] using hid
    omega
  · simp only [if_neg hpi] at hid ⊢
    exact h p hp hid

theorem batchLoop_keep_true (flags : ℕ → Bool) (channels : List String)
    (outcome : ℕ → String → Option String) (now : ℚ) (x : ℕ) :
    ∀ (posts : List Post) (s : SysState) (k : ℕ) (failed : List (ℕ × String)),
      (∀ q ∈ s.db, q.id = x → q.posted = true) →
      ∀ q ∈ (batchLoop flags channels outcome now posts s k failed).1.db,
        q.id = x → q.posted = true := by
  intro posts
  induction posts with
  | nil => intro s k failed h; exact h
  | cons post rest ih =>
      intro s k failed h
      unfold batchLoop
      dsimp only
      split
      · exact h
      · apply ih
        intro q hq hid
        have hdb : (fanoutSends outcome now post
            (filterActive now channels s.retry).2 { s with retry := (filterActive now channels s.retry).1 }).1.db
              = s.db := fanoutSends_db outcome now post _ _
        dsimp only at hq
        rw [hdb] at hq
        exact mark_posted_keep_true s.db post.id now _ x h q hq hid

theorem batchLoop_deferred (flags : ℕ → Bool) (channels : List String)
    (outcome : ℕ → String → Option String) (now : ℚ) :
    ∀ (posts : List Post) (s : SysState) (k : ℕ) (failed : List (ℕ × String)),
      (batchLoop flags channels outcome now posts s k failed).1.deferred_retries
        = s.deferred_retries := by
  intro posts
  induction posts with
  | nil => intro s k failed; rfl
  | cons post rest ih =>
      intro s k failed
      unfold batchLoop
      dsimp only
      split
      · rfl
      · rw [ih]
        exact fanoutSends_deferred outcome now post _ _

/-- Every post of the prefix processed before the emergency flag trips is
marked posted in the loop's final store. -/
theorem batchLoop_marks (flags : ℕ → Bool) (channels : List String)
    (outcome : ℕ → String → Option String) (now : ℚ) :
    ∀ (posts : List Post) (j : ℕ) (s : SysState) (k : ℕ) (failed : List (ℕ × String)),
      (∀ i, i < j → flags (k + i) = false) → flags (k + j) = true → j ≤ posts.length →
      ∀ p ∈ posts.take j,
        ∀ q ∈ (batchLoop flags channels outcome now posts s k failed).1.db,
          q.id = p.id → q.posted = true := by
  intro posts
  induction posts with
  | nil =>
      intro j s k failed hlt hj hlen p hp
      rw [Nat.le_zero.mp hlen] at hp
      simp at hp
  | cons post rest ih =>
      intro j s k failed hlt hj hlen p hp
      cases j with
      | zero => simp at hp
      | succ jj =>
          have hk : flags k = false := by
            have := hlt 0 (by omega)
            simpa using this
          unfold batchLoop
          dsimp only
          rw [if_neg (by simp [hk])]
          rw [List.take_succ_cons] at hp
          rcases List.mem_cons.mp hp with hpp | hptail
          · subst hpp
            apply batchLoop_keep_true
            intro q hq hid
            have hdb : (fanoutSends outcome now p
                (filterActive now channels s.retry).2
                { s with retry := (filterActive now channels s.retry).1 }).1.db
                  = s.db := fanoutSends_db outcome now p _ _
            dsimp only at hq
            rw [hdb] at hq
            exact mark_posted_self s.db p.id now _ q hq hid
          · apply ih jj _ (k + 1) _ ?_ ?_ ?_ p hptail
            · intro i hi
              rw [show k + 1 + i = k + (i + 1) by omega]
              exact hlt (i + 1) (by omega)
            · rw [show k + 1 + jj = k + (jj + 1) by omega]
              exact hj
            · simpa using hlen

/-- A post id outside the processed prefix is never marked: entries for it
keep `posted = false` through the loop. -/
theorem batchLoop_unmarked (flags : ℕ → Bool) (channels : List String)
    (outcome : ℕ → String → Option String) (now : ℚ) :
    ∀ (posts : List Post) (j : ℕ) (s : SysState) (k : ℕ) (failed : List (ℕ × String)) (x : ℕ),
      (∀ i, i < j → flags (k + i) = false) → flags (k + j) = true → j ≤ posts.length →
      x ∉ (posts.take j).map Post.id →
      (∀ q ∈ s.db, q.id = x → q.posted = false) →
      ∀ q ∈ (batchLoop flags channels outcome now posts s k failed).1.db,
        q.id = x → q.posted = false := by
  intro posts
  induction posts with
  | nil => intro j s k failed x _ _ _ _ h; exact h
  | cons post rest ih =>
      intro j s k failed x hlt hj hlen hx h
      cases j with
      | zero =>
          have hk : flags k = true := by simpa using hj
          unfold batchLoop
          dsimp only
          rw [if_pos (by simp [hk])]
          exact h
      | succ jj =>
          have hk : flags k = false := by
            have := hlt 0 (by omega)
            simpa using this
          rw [List.take_succ_cons, List.map_cons, List.mem_cons] at hx
          push_neg at hx
          unfold batchLoop
          dsimp only
          rw [if_neg (by simp [hk])]
          apply ih jj _ (k + 1) _ x ?_ ?_ ?_ hx.2
          · intro q hq hid
            have hdb : (fanoutSends outcome now post
                (filterActive now channels s.retry).2
                { s with retry := (filterActive now channels s.retry).1 }).1.db
                  = s.db := fanoutSends_db outcome now post _ _
            dsimp only at hq
            rw [hdb] at hq
            exact mark_posted_keep_false s.db post.id now _ x (fun hc => hx.1 hc.symm) h q hq hid
          · intro i hi
            rw [show k + 1 + i = k + (i + 1) by omega]
            exact hlt (i + 1) (by omega)
          · rw [show k + 1 + jj = k + (jj + 1) by omega]
            exact hj
          · simpa using hlen

theorem retryPhase_db (now : ℚ) (outcome : ℕ → String → Option String) :
    ∀ (fs : List (ℕ × String)) (s : SysState),
      (retryPhase now outcome fs s).1.db = s.db := by
  intro fs
  induction fs with
  | nil => intro s; rfl
  | cons f fs ih =>
      intro s
      unfold retryPhase
      dsimp only
      split
      · exact ih _
      · cases hdf : dbFetch ({ s with retry := (should_skip s.retry f.2 now).2 } : SysState).db f.1 with
        | none => simp only [hdf]; exact ih _
        | some post =>
            simp only [hdf]
            rw [ih, sendPostToChannel_db]

/-- The store after `send_batch_to_all_channels` is the store after its
per-post loop: neither the deferral branch nor the immediate-retry phase
writes to the `posts` table. -/
theorem send_batch_db (s : SysState) (posts : List Post) (channels : List String)
    (outcome : ℕ → String → Option String) (flags : ℕ → Bool) (next_post : Option ℚ)
    (now : ℚ) (h0 : flags 0 = false) :
    (send_batch_to_all_channels s posts channels outcome flags next_post now).1.db
      = (batchLoop flags channels outcome now posts
          { s with limiter := reset_burst s.limiter } 1 []).1.db := by
  unfold send_batch_to_all_channels
  rw [if_neg (by simp [h0])]
  dsimp only
  split
  · rfl
  · split
    · rfl
    · split
      · rfl
      · exact retryPhase_db now outcome _ _

/-- Claim C9: when the emergency-stop flag is first observed set at the check
before item `j`'s fan-out (flag samples 0 through `j` are false — the check
before the batch and the checks before items 0..j−1 — and sample `j+1`, the
check before item `j`, is true), every item of the processed prefix
`posts.take j` ends up persisted with `posted = true` (each written only
after its own fan-out completes, with that fan-out's success count), and
every post id outside that prefix is untouched: all its store entries remain
`posted = false`. -/
theorem emergency_stop_preserves_prefix (s : SysState) (posts : List Post)
    (channels : List String) (outcome : ℕ → String → Option String)
    (flags : ℕ → Bool) (next_post : Option ℚ) (now : ℚ) (j : ℕ)
    (h0 : ∀ i, i ≤ j → flags i = false) (h1 : flags (j + 1) = true)
    (hj : j ≤ posts.length) (hclean : ∀ q ∈ s.db, q.posted = false) :
    (∀ p ∈ posts.take j,
       ∀ q ∈ (send_batch_to_all_channels s posts channels outcome flags next_post now).1.db,
         q.id = p.id → q.posted = true) ∧
    (∀ x : ℕ, x ∉ (posts.take j).map Post.id →
       ∀ q ∈ (send_batch_to_all_channels s posts channels outcome flags next_post now).1.db,
         q.id = x → q.posted = false) := by
  have hf0 : flags 0 = false := h0 0 (by omega)
  have hdb := send_batch_db s posts channels outcome flags next_post now hf0
  have hlt : ∀ i, i < j → flags (1 + i) = false := by
    intro i hi
    rw [show 1 + i = i + 1 by omega]
    exact h0 (i + 1) (by omega)
  have hj1 : flags (1 + j) = true := by
    rw [show 1 + j = j + 1 by omega]
    exact h1
  constructor
  · intro p hp q hq hid
    rw [hdb] at hq
    exact batchLoop_marks flags channels outcome now posts j
      { s with limiter := reset_burst s.limiter } 1 [] hlt hj1 hj p hp q hq hid
  · intro x hx q hq hid
    rw [hdb] at hq
    exact batchLoop_unmarked flags channels outcome now posts j
      { s with limiter := reset_burst s.limiter } 1 [] x hlt hj1 hj hx
      (fun q hq _ => hclean q hq) q hq hid

/-- Scenario E: 5 undispatched work items in the store. -/
def w9posts : List Post :=
  [cexPost 1 0 none, cexPost 2 0 none, cexPost 3 0 none, cexPost 4 0 none, cexPost 5 0 none]

/-- Scenario E: 10 destinations. -/
def w9chs : List String :=
  ["c1", "c2", "c3", "c4", "c5", "c6", "c7", "c8", "c9", "c10"]

/-- Scenario E: the emergency flag is raised just before item 3's fan-out
(flag samples 0, 1, 2 false; samples from 3 on true). -/
def w9flags : ℕ → Bool := fun i => decide (3 ≤ i)

/-- Scenario E initial state. -/
def w9s : SysState := { initSys with db := w9posts }

/-- Witness for C9: the concrete 5 × 10 batch with the stop raised before
item 3's fan-out — items 1 and 2 end up posted, items 3, 4, 5 stay
unposted. -/
theorem emergency_stop_preserves_prefix_witness :
    (∀ p ∈ w9posts.take 2,
       ∀ q ∈ (send_batch_to_all_channels w9s w9posts w9chs oSucc w9flags none 0).1.db,
         q.id = p.id → q.posted = true) ∧
    (∀ x : ℕ, x ∉ (w9posts.take 2).map Post.id →
       ∀ q ∈ (send_batch_to_all_channels w9s w9posts w9chs oSucc w9flags none 0).1.db,
         q.id = x → q.posted = false) :=
  emergency_stop_preserves_prefix w9s w9posts w9chs oSucc w9flags none 0 2
    (by
      intro i hi
      simp only [w9flags, decide_eq_false_iff_not]
      omega)
    (by decide) (by decide)
    (by decide)

/-- The number of `emergency_stopped_flag` samples consumed by the time
`send_batch_to_all_channels` reaches its retry-decision phase (one initial
sample plus one per loop iteration entered); the retry-decision phase, when
it samples the flag at all, samples this index. -/
def batch_counter (s : SysState) (posts : List Post) (channels : List String)
    (outcome : ℕ → String → Option String) (flags : ℕ → Bool) (now : ℚ) : ℕ :=
  (batchLoop flags channels outcome now posts
    { s with limiter := reset_burst s.limiter } 1 []).2.1

/-- Claim C10: when the emergency-stop flag reads true at the retry-decision
phase of `send_batch_to_all_channels`, every failed send collected during the
batch is discarded — no immediate retry runs (`retry_success` is 0) and
nothing is appended to the deferred-retry queue, which is returned exactly as
it was before the batch. -/
theorem emergency_stop_discards_failures (s : SysState) (posts : List Post)
    (channels : List String) (outcome : ℕ → String → Option String)
    (flags : ℕ → Bool) (next_post : Option ℚ) (now : ℚ)
    (h : flags (batch_counter s posts channels outcome flags now) = true) :
    (send_batch_to_all_channels s posts channels outcome flags next_post now).1.deferred_retries
      = s.deferred_retries ∧
    ((send_batch_to_all_channels s posts channels outcome flags next_post now).2.elim 0
        BatchResult.retry_success) = 0 := by
  unfold batch_counter at h
  have hd : (batchLoop flags channels outcome now posts
      { s with limiter := reset_burst s.limiter } 1 []).1.deferred_retries
        = s.deferred_retries :=
    batchLoop_deferred flags channels outcome now posts _ 1 []
  unfold send_batch_to_all_channels
  by_cases h0 : flags 0 = true
  · rw [if_pos h0]
    exact ⟨rfl, rfl⟩
  · rw [if_neg h0]
    dsimp only
    by_cases hemp : (batchLoop flags channels outcome now posts
        { s with limiter := reset_burst s.limiter } 1 []).2.2.isEmpty = true
    · rw [if_pos hemp]
      exact ⟨hd, rfl⟩
    · rw [if_neg hemp, if_pos h]
      exact ⟨hd, rfl⟩

/-- Scenario for the C10 witness: one post, one channel, a failing transport,
the stop raised after the loop and before the retry decision; the queue holds
an unrelated pre-existing entry which must come through unchanged. -/
def w10s : SysState :=
  { initSys with
      db := [cexPost 1 0 none],
      deferred_retries := [⟨9, "z", 5, 1⟩] }

/-- Scenario for the C10 witness: flag samples 0 and 1 false (initial check
and item 1's check), sample 2 — the retry-decision check — true. -/
def w10flags : ℕ → Bool := fun i => decide (2 ≤ i)

/-- Witness for C10: the batch's one send fails, the flag is set at the
retry-decision sample, and the deferred queue comes out exactly as it went
in, with no retry successes. -/
theorem emergency_stop_discards_failures_witness :
    (send_batch_to_all_channels w10s [cexPost 1 0 none] ["c"] oFail w10flags none 0).1.deferred_retries
      = w10s.deferred_retries ∧
    ((send_batch_to_all_channels w10s [cexPost 1 0 none] ["c"] oFail w10flags none 0).2.elim 0
        BatchResult.retry_success) = 0 :=
  emergency_stop_discards_failures w10s [cexPost 1 0 none] ["c"] oFail w10flags none 0
    (by
      have hc1 : classify_error "Timed out" = ErrType.temporary := by decide
      have hf1 : floodTrigger "Timed out" = false := by decide
      norm_num [batch_counter, batchLoop, filterActive, fanoutSends, should_skip,
        sendPostToChannel, sendSuccessUpdate, sendFailureUpdate, record_failure,
        record_success, report_success, report_flood_control, acquire, checkLimit,
        cleanWindow, burstOrToken, refill_tokens, reset_burst, mark_posted, upd,
        w10s, w10flags, initSys, initRetry, initLimiter, cexPost, oFail, hc1, hf1])
